import Mathlib

/-!
# Verification of `src/MCPRegistry.py`

A shallow embedding of the core of the MCP Server Explorer (registry store
and `MCPClient`) together with theorems settling the claims of the
specification.

Modelling conventions:
* Python dictionaries are insertion-ordered association lists.
* The value domain of the `json` library is the inductive `Json`; `json.dump`
  followed by `json.load` is modelled at the value level (the byte layer is
  a concern of that library, an external dependency of the repository).
* The `requests` library is modelled by an environment-supplied
  `HttpResponse`: either a raised `RequestException` (network failure —
  `requests` exceptions, including `HTTPError` from `raise_for_status` and
  `JSONDecodeError` from `Response.json`, all derive from
  `RequestException`), or a final response carrying a status code and the
  result of parsing its body (`none` = body missing/unparseable).
* Externally observable I/O (subprocess spawn, session handshake, HTTP GET)
  is recorded in an explicit `Effect` trace returned next to each result.
* A Python exception escaping to the caller is `Except.error`; `st.error`
  reporting is a `Bool` flag in the result.
-/

namespace MCPRegistry

/-- JSON values, the domain of `json.load`/`json.dump` in Python. -/
inductive Json where
  | null : Json
  | bool : Bool → Json
  | num : Int → Json
  | str : String → Json
  | arr : List Json → Json
  | obj : List (String × Json) → Json

/-- Python exceptions that the embedded code can raise. -/
inductive PyError where
  | valueError (msg : String)
  | attributeError (attr : String)
  deriving DecidableEq, Repr

/-- `mcp.StdioServerParameters`: command, argument list, environment. -/
structure StdioServerParameters where
  command : String
  args : List String
  env : Option (List (String × String))
  deriving DecidableEq, Repr

/-- Externally observable I/O performed by a client operation, in order:
subprocess launch via `stdio_client`, the protocol handshake
`session.initialize()`, a `session.list_tools()` round trip, and an HTTP
`requests.get(url)`. -/
inductive Effect where
  | spawn (params : StdioServerParameters)
  | sessionInit
  | sessionListTools
  | httpGet (url : String)
  deriving DecidableEq, Repr

/-- Outcome of `requests.get` (after redirect handling): a raised
`RequestException`, or a final response with its status code and the result
of parsing its body as JSON (`none` when the body is missing or not
parseable; `requests.Response.json` raises `JSONDecodeError`, a subclass of
`RequestException`, in that case). -/
inductive HttpResponse where
  | failure
  | response (status : Nat) (body : Option Json)

/-! ## Registry store (`load_saved_servers` / `save_servers`, lines 15–34) -/

/-- The registry mapping: server name to its descriptor record, a Python
`Dict[str, Dict[str, str]]` (insertion-ordered). -/
abbrev Registry : Type := List (String × List (String × String))

/-- State of the file `mcp_servers.json`: absent, present but not parseable
as JSON, or holding a parsed JSON value. -/
inductive RegistryFile where
  | missing
  | corrupt
  | stored (j : Json)

/-- Encoding of one descriptor record as a JSON object (what `json.dump`
produces for an inner `Dict[str, str]`). -/
def encodeRecord (r : List (String × String)) : Json :=
  .obj (r.map (fun kv => (kv.1, .str kv.2)))

/-- Encoding of the whole registry as a JSON object (what `json.dump`
produces for the outer dict). -/
def encodeRegistry (m : Registry) : Json :=
  .obj (m.map (fun e => (e.1, encodeRecord e.2)))

/-- Reading a parsed JSON object back as a `Dict[str, str]` record: every
value must be a string. -/
def decodeRecordEntries : List (String × Json) → Option (List (String × String))
  | [] => some []
  | (k, .str v) :: rest =>
      (decodeRecordEntries rest).map (fun r => (k, v) :: r)
  | _ => none

/-- Reading a parsed JSON value as a descriptor record. -/
def decodeRecord : Json → Option (List (String × String))
  | .obj es => decodeRecordEntries es
  | _ => none

/-- Reading parsed JSON object entries back as a registry. -/
def decodeRegistryEntries : List (String × Json) → Option Registry
  | [] => some []
  | (n, v) :: rest =>
      match decodeRecord v, decodeRegistryEntries rest with
      | some r, some m => some ((n, r) :: m)
      | _, _ => none

/-- Reading a parsed JSON value as the registry mapping type that the
annotation `Dict[str, Dict[str, str]]` in the source declares. -/
def decodeRegistry : Json → Option Registry
  | .obj es => decodeRegistryEntries es
  | _ => none

/-- Body of the `try` block of `load_saved_servers` (lines 17–21):
`os.path.exists` false returns `{}`; otherwise `json.load` either raises or
returns the parsed value. -/
def load_saved_servers_body : RegistryFile → Except Unit Json
  | .missing => .ok (Json.obj [])
  | .corrupt => .error ()
  | .stored j => .ok j

/-- `load_saved_servers` (lines 15–24): the `try`/`except Exception` wrapper
reports any error via `st.error` (the `Bool`) and returns `{}`; no exception
reaches the caller, hence the plain (non-`Except`) result type. -/
def load_saved_servers (f : RegistryFile) : Json × Bool :=
  match load_saved_servers_body f with
  | .ok j => (j, false)
  | .error _ => (Json.obj [], true)

/-- `save_servers` (lines 26–34): overwrites `mcp_servers.json` with the
JSON encoding of the mapping and returns `True`. (The `except` branch covers
OS-level write failures, which the file-state model does not produce.) -/
def save_servers (servers : Registry) (_f : RegistryFile) : RegistryFile × Bool :=
  (.stored (encodeRegistry servers), true)

/-- Adding a server in the management tab (line 366,
`st.session_state.saved_servers[new_server_name] = server_data`): Python
dict assignment replaces in place on an existing key, else appends. -/
def addServer (regs : Registry) (name : String) (data : List (String × String)) :
    Registry :=
  if regs.any (fun e => e.1 = name) then
    regs.map (fun e => if e.1 = name then (name, data) else e)
  else
    regs ++ [(name, data)]

/-! ## `MCPClient` (lines 36–129) -/

/-- Python `str.endswith(suffix)`: the character sequence ends with the
characters of the suffix. -/
def pyEndsWith (s suffix : String) : Bool :=
  suffix.data.isSuffixOf s.data

/-- `str.rstrip("/")`: remove all trailing `'/'` characters. -/
def pyRstripSlashes (s : String) : String :=
  ⟨((s.data.reverse).dropWhile (fun c => c == '/')).reverse⟩

/-- The attributes an `MCPClient` instance holds after `__init__`
(lines 48–66). `none` stands both for Python `None` and for an attribute the
branch taken by the constructor never assigned (`server_url` on stdio clients,
`command`/`server_params` on HTTP clients; `instanceAttrs` below records
which attributes exist). `exit_stack` models `AsyncExitStack`: the list of
stdio transports entered and not yet closed. -/
structure MCPClientState where
  protocol : String
  process : Option Unit
  stop_event : Option Unit
  session : Option Unit
  stdio : Option Unit
  write : Option Unit
  server_url : Option String
  command : Option String
  server_params : Option StdioServerParameters
  exit_stack : List StdioServerParameters
  deriving DecidableEq, Repr, Inhabited

/-- The parameters hard-coded at lines 61–65 of `__init__`:
`StdioServerParameters(command="uv", args=["run", "OneMCPServer.py"], env=None)`. -/
def hardcodedServerParams : StdioServerParameters :=
  { command := "uv", args := ["run", "OneMCPServer.py"], env := none }

/-- `MCPClient.__init__` (lines 39–68). Pure construction: the only I/O
hook is the returned (always empty) effect trace — the body only assigns
attributes, builds `StdioServerParameters` (a data class) and an empty
`AsyncExitStack`. HTTP branch: `server_url.rstrip("/") if server_url else
None` (both `None` and `""` are falsy). stdio branch: stores `command`
verbatim, ignores `program`, and sets `server_params` to the hard-coded
constant. Any other protocol raises `ValueError`. -/
def MCPClient.init (server_url command program : Option String)
    (protocol : String) : Except PyError MCPClientState × List Effect :=
  let base : MCPClientState :=
    { protocol := protocol, process := none, stop_event := none,
      session := none, stdio := none, write := none, server_url := none,
      command := none, server_params := none, exit_stack := [] }
  if protocol = "http" then
    (.ok { base with
            server_url :=
              match server_url with
              | some s => if s = "" then none else some (pyRstripSlashes s)
              | none => none },
     [])
  else if protocol = "stdio" then
    let _ := program
    (.ok { base with command := command, server_params := some hardcodedServerParams },
     [])
  else
    (.error (.valueError ("Unsupported protocol: " ++ protocol)), [])

/-- The state produced by `MCPClient.__init__` on its success paths (and a
default on the raising path); convenience accessor for concrete scenarios. -/
def initClient (server_url command program : Option String)
    (protocol : String) : MCPClientState :=
  match (MCPClient.init server_url command program protocol).1 with
  | .ok c => c
  | .error _ => default

/-- Methods defined in the body of `class MCPClient` (lines 36–129). There
is no `cleanup` among them, although `main` (line 185) and `on_exit`
(line 377) call one. -/
def MCPClient.classAttrs : List String :=
  ["__init__", "connect_to_server", "get_server_info", "list_tools"]

/-- Instance attributes assigned by `__init__` for a client of the given
state (lines 48–66; the two transports assign different attributes). -/
def MCPClient.instanceAttrs (c : MCPClientState) : List String :=
  ["protocol", "process", "stop_event", "session", "exit_stack"] ++
    (if c.protocol = "http" then ["server_url"]
     else if c.protocol = "stdio" then ["command", "server_params"]
     else [])

/-- Python attribute lookup on an `MCPClient` instance: instance dict, then
class; a miss raises `AttributeError`. -/
def MCPClient.getattr (c : MCPClientState) (name : String) : Except PyError Unit :=
  if name ∈ MCPClient.instanceAttrs c ∨ name ∈ MCPClient.classAttrs then .ok ()
  else .error (.attributeError name)

/-- The call `client.cleanup()`: attribute lookup of `"cleanup"` (which, if
it succeeded, would invoke the method — no such method is defined on
`MCPClient`, so the lookup itself raises). -/
def MCPClient.call_cleanup (c : MCPClientState) : Except PyError Unit :=
  MCPClient.getattr c "cleanup"

/-- `on_exit` (lines 375–377): with no (or a falsy) client in session state
it does nothing; otherwise it calls `client.cleanup()`. -/
def on_exit : Option MCPClientState → Except PyError Unit
  | none => .ok ()
  | some c => MCPClient.call_cleanup c

/-- URL built by the f-strings at lines 104 and 117:
`f"{self.server_url}/server_info"` etc. — Python interpolates `None` as the
text `"None"`. -/
def http_url (c : MCPClientState) (path : String) : String :=
  (match c.server_url with | some s => s | none => "None") ++ path

/-- `Response.raise_for_status`: `requests` raises `HTTPError` exactly for
status codes in [400, 600). -/
def raise_for_status_raises (status : Nat) : Bool :=
  400 ≤ status && status < 600

/-- `MCPClient.get_server_info` (lines 100–111). HTTP branch: GET
`{server_url}/server_info`; any `RequestException` (network failure,
`raise_for_status`, body-parse failure) is caught, reported via `st.error`
(the `Bool`), and `{}` is returned. stdio branch: returns the stub
`{"action": "server_info"}` with no I/O. Any other protocol falls off the
end (Python returns `None`). Result: (outcome, error-reported, effects). -/
def MCPClient.get_server_info (c : MCPClientState) (r : HttpResponse) :
    Except PyError Json × Bool × List Effect :=
  if c.protocol = "http" then
    let effs := [Effect.httpGet (http_url c "/server_info")]
    match r with
    | .failure => (.ok (Json.obj []), true, effs)
    | .response status body =>
        if raise_for_status_raises status then (.ok (Json.obj []), true, effs)
        else
          match body with
          | none => (.ok (Json.obj []), true, effs)
          | some j => (.ok j, false, effs)
  else if c.protocol = "stdio" then
    (.ok (Json.obj [("action", .str "server_info")]), false, [])
  else
    (.ok Json.null, false, [])

/-- Python `dict.get(k, default)` on the entries of a parsed JSON object. -/
def dictGet (entries : List (String × Json)) (k : String) (dflt : Json) : Json :=
  match entries.find? (fun e => e.1 = k) with
  | some e => e.2
  | none => dflt

/-- `MCPClient.list_tools` (lines 113–129). HTTP branch: GET
`{server_url}/list_tools`; a `RequestException` (network, status in
[400,600), unparseable body) is caught → `st.error` + `[]`; a parsed JSON
object yields `.get("tools", [])`; a parsed non-object body makes
`.get` raise `AttributeError`, which the `except requests.RequestException`
clause does not catch. stdio branch: unconditionally enters a new
`stdio_client(self.server_params)` context (spawning the subprocess),
creates and initializes a fresh `ClientSession`, and returns the value that
`list_tools()` result (`toolsResult`, environment-supplied). Any other
protocol falls off the end (`None`). Result:
(updated state, outcome, error-reported, effects). -/
def MCPClient.list_tools (c : MCPClientState) (r : HttpResponse)
    (toolsResult : Json) :
    MCPClientState × Except PyError Json × Bool × List Effect :=
  if c.protocol = "http" then
    let effs := [Effect.httpGet (http_url c "/list_tools")]
    match r with
    | .failure => (c, .ok (Json.arr []), true, effs)
    | .response status body =>
        if raise_for_status_raises status then (c, .ok (Json.arr []), true, effs)
        else
          match body with
          | none => (c, .ok (Json.arr []), true, effs)
          | some (.obj es) => (c, .ok (dictGet es "tools" (Json.arr [])), false, effs)
          | some _ => (c, .error (.attributeError "get"), false, effs)
  else if c.protocol = "stdio" then
    match c.server_params with
    | some ps =>
        ({ c with session := some (), stdio := some (), write := some (),
                  exit_stack := c.exit_stack ++ [ps] },
         .ok toolsResult, false,
         [Effect.spawn ps, Effect.sessionInit, Effect.sessionListTools])
    | none => (c, .error (.attributeError "server_params"), false, [])
  else
    (c, .ok Json.null, false, [])

/-- `MCPClient.connect_to_server` (lines 70–98). First validates the script
suffix (raising `ValueError` before touching the exit stack or any
transport); the computed `command = "python" if is_python else "node"` is
dead (its use is commented out). Then enters
`stdio_client(self.server_params)` (spawn — on an HTTP client that
attribute was never assigned, so the access raises `AttributeError`),
creates and initializes a `ClientSession`, lists tools once (the printed
names are discarded) and returns `self.get_server_info()`. -/
def MCPClient.connect_to_server (c : MCPClientState)
    (server_script_path : String) (r : HttpResponse) :
    MCPClientState × Except PyError Json × List Effect :=
  let is_python := pyEndsWith server_script_path ".py"
  let is_js := pyEndsWith server_script_path ".js"
  if ¬ (is_python ∨ is_js) then
    (c, .error (.valueError "Server script must be a .py or .js file"), [])
  else
    match c.server_params with
    | none => (c, .error (.attributeError "server_params"), [])
    | some ps =>
        let c1 : MCPClientState :=
          { c with session := some (), stdio := some (), write := some (),
                   exit_stack := c.exit_stack ++ [ps] }
        let info := MCPClient.get_server_info c1 r
        (c1, info.1,
         [Effect.spawn ps, Effect.sessionInit, Effect.sessionListTools] ++ info.2.2)

/-! ## Helper lemmas -/

/-- Decoding inverts encoding on one descriptor record. -/
theorem decodeRecordEntries_encode (r : List (String × String)) :
    decodeRecordEntries (r.map (fun kv => (kv.1, Json.str kv.2))) = some r := by
  induction r with
  | nil => rfl
  | cons kv t ih =>
      obtain ⟨k, v⟩ := kv
      simp [decodeRecordEntries, ih]

/-- Decoding inverts encoding on the entry list of the registry. -/
theorem decodeRegistryEntries_encode (m : Registry) :
    decodeRegistryEntries (m.map (fun e => (e.1, encodeRecord e.2))) = some m := by
  induction m with
  | nil => rfl
  | cons e t ih =>
      obtain ⟨n, r⟩ := e
      simp only [encodeRecord] at ih
      simp [decodeRegistryEntries, decodeRecord, encodeRecord,
        decodeRecordEntries_encode, ih]

/-- Decoding inverts encoding on the whole registry. -/
theorem decodeRegistry_encode (m : Registry) :
    decodeRegistry (encodeRegistry m) = some m :=
  decodeRegistryEntries_encode m

/-- The head of `dropWhile p` never satisfies `p`. -/
theorem head?_dropWhile_eq_false (p : Char → Bool) :
    ∀ (l : List Char) (c : Char), (l.dropWhile p).head? = some c → p c = false := by
  intro l
  induction l with
  | nil => intro c h; simp [List.dropWhile] at h
  | cons a t ih =>
      intro c h
      rw [List.dropWhile_cons] at h
      by_cases hp : p a = true
      · rw [if_pos hp] at h
        exact ih c h
      · rw [if_neg hp] at h
        simp only [List.head?_cons, Option.some.injEq] at h
        subst h
        simpa using hp

/-- `rstrip("/")` leaves no trailing slash. -/
theorem pyRstripSlashes_no_trailing (s : String) :
    (pyRstripSlashes s).data.getLast? ≠ some '/' := by
  intro h
  unfold pyRstripSlashes at h
  rw [List.getLast?_reverse] at h
  have := head?_dropWhile_eq_false (fun c => c == '/') s.data.reverse '/' h
  simp at this

/-- On an HTTP client, `get_server_info` performs exactly one GET of
`{server_url}/server_info`, whatever the response. -/
theorem get_server_info_effects (c : MCPClientState) (r : HttpResponse)
    (hp : c.protocol = "http") :
    (MCPClient.get_server_info c r).2.2 = [.httpGet (http_url c "/server_info")] := by
  unfold MCPClient.get_server_info
  rw [hp, if_pos rfl]
  cases r with
  | failure => rfl
  | response status body =>
      by_cases hs : raise_for_status_raises status = true
      · simp only [hs, if_pos]
      · simp only [hs]
        cases body <;> rfl

/-- On an HTTP client, `list_tools` performs exactly one GET of
`{server_url}/list_tools`, whatever the response. -/
theorem list_tools_http_effects (c : MCPClientState) (r : HttpResponse)
    (ts : Json) (hp : c.protocol = "http") :
    (MCPClient.list_tools c r ts).2.2.2 = [.httpGet (http_url c "/list_tools")] := by
  unfold MCPClient.list_tools
  rw [hp, if_pos rfl]
  cases r with
  | failure => rfl
  | response status body =>
      by_cases hs : raise_for_status_raises status = true
      · simp only [hs, if_pos]
      · simp only [hs]
        match body with
        | none => rfl
        | some .null => rfl
        | some (.bool _) => rfl
        | some (.num _) => rfl
        | some (.str _) => rfl
        | some (.arr _) => rfl
        | some (.obj _) => rfl

/-- `get_server_info` never lets an exception escape: every branch returns
normally. -/
theorem get_server_info_is_ok (c : MCPClientState) (r : HttpResponse) :
    ∃ j b e, MCPClient.get_server_info c r = (.ok j, b, e) := by
  unfold MCPClient.get_server_info
  by_cases h1 : c.protocol = "http"
  · rw [if_pos h1]
    cases r with
    | failure => exact ⟨_, _, _, rfl⟩
    | response status body =>
        by_cases hs : raise_for_status_raises status = true
        · simp only [hs, if_pos]
          exact ⟨_, _, _, rfl⟩
        · simp only [hs]
          cases body <;> exact ⟨_, _, _, rfl⟩
  · rw [if_neg h1]
    by_cases h2 : c.protocol = "stdio"
    · rw [if_pos h2]; exact ⟨_, _, _, rfl⟩
    · rw [if_neg h2]; exact ⟨_, _, _, rfl⟩

/-! ## Claim theorems -/

/-- C1: the specification requires `cleanup()` to be idempotent and safe in
every state, and the program itself relies on it (`main` line 185, `on_exit`
line 377) — but `class MCPClient` defines no `cleanup` method at all, so the
very first `client.cleanup()` call raises `AttributeError` on both an HTTP
and a stdio client, and so does the registered `atexit` handler `on_exit`
whenever a client is present. This evaluates the code at the failing input. -/
theorem cleanup_missing_raises :
    MCPClient.call_cleanup (initClient (some "http://localhost:8000") none none "http")
        = .error (.attributeError "cleanup")
    ∧ MCPClient.call_cleanup (initClient none (some "run") (some "/abs/path/server") "stdio")
        = .error (.attributeError "cleanup")
    ∧ on_exit (some (initClient (some "http://localhost:8000") none none "http"))
        = .error (.attributeError "cleanup")
    ∧ "cleanup" ∉ MCPClient.classAttrs :=
  ⟨rfl, rfl, rfl, by decide⟩

/-- C2 (counterexample): constructing a client with `protocol="http"` and no
`serverUrl` does not fail — it returns normally with `server_url = None` —
and constructing with `protocol="stdio"` and neither `command` nor `program`
also returns normally; neither performs any I/O. This refutes the claim
that such constructions fail with an InvalidConfiguration error. -/
theorem init_wrong_combination_succeeds :
    MCPClient.init none none none "http"
      = (.ok { protocol := "http", process := none, stop_event := none,
               session := none, stdio := none, write := none, server_url := none,
               command := none, server_params := none, exit_stack := [] }, [])
    ∧ MCPClient.init none none none "stdio"
      = (.ok { protocol := "stdio", process := none, stop_event := none,
               session := none, stdio := none, write := none, server_url := none,
               command := none, server_params := some hardcodedServerParams,
               exit_stack := [] }, []) :=
  ⟨rfl, rfl⟩

/-- C2 (amended): the constructor validates only the `protocol` value.
`protocol="http"` with no `serverUrl` succeeds, storing `None` as the
endpoint; `protocol="stdio"` with missing `command`/`program` succeeds
(storing `None` for `command` and the hard-coded launch parameters); an
unsupported protocol raises `ValueError`. In every case construction
performs no I/O (empty effect trace). -/
theorem init_validates_only_protocol (su cmd prog : Option String) (p : String) :
    MCPClient.init none cmd prog "http"
      = (.ok { protocol := "http", process := none, stop_event := none,
               session := none, stdio := none, write := none, server_url := none,
               command := none, server_params := none, exit_stack := [] }, [])
    ∧ MCPClient.init su none prog "stdio"
      = (.ok { protocol := "stdio", process := none, stop_event := none,
               session := none, stdio := none, write := none, server_url := none,
               command := none, server_params := some hardcodedServerParams,
               exit_stack := [] }, [])
    ∧ (p ≠ "http" → p ≠ "stdio" →
        MCPClient.init su cmd prog p
          = (.error (.valueError ("Unsupported protocol: " ++ p)), [])) := by
  refine ⟨rfl, rfl, fun h1 h2 => ?_⟩
  simp [MCPClient.init, h1, h2]

/-- C2 (witness): the amended theorem applied at the unsupported protocol
value `"ws"`. -/
theorem init_validates_only_protocol_witness :
    MCPClient.init none none none "ws"
      = (.error (.valueError ("Unsupported protocol: " ++ "ws")), []) :=
  (init_validates_only_protocol none none none "ws").2.2 (by decide) (by decide)

/-- C3: the launch parameters are NOT a function of the configured
`command`/`program` inputs: `__init__` stores the literal
`StdioServerParameters(command="uv", args=["run", "OneMCPServer.py"])`,
so a client configured with `command="python"`, `program="myserver.py"`
still spawns `uv run OneMCPServer.py` — on `list_tools` and on
`connect_to_server` alike; the configured command is stored but unused and
the configured program appears nowhere in the spawn arguments. This
evaluates the code at the failing input. -/
theorem stdio_spawn_params_hardcoded :
    (initClient none (some "python") (some "myserver.py") "stdio").command
        = some "python"
    ∧ (initClient none (some "python") (some "myserver.py") "stdio").server_params
        = some hardcodedServerParams
    ∧ hardcodedServerParams
        = { command := "uv", args := ["run", "OneMCPServer.py"], env := none }
    ∧ (MCPClient.list_tools (initClient none (some "python") (some "myserver.py") "stdio")
          .failure Json.null).2.2.2
        = [.spawn hardcodedServerParams, .sessionInit, .sessionListTools]
    ∧ (MCPClient.connect_to_server (initClient none (some "python") (some "myserver.py") "stdio")
          "myserver.py" .failure).2.2
        = [.spawn hardcodedServerParams, .sessionInit, .sessionListTools]
    ∧ hardcodedServerParams.command ≠ "python"
    ∧ "myserver.py" ∉ hardcodedServerParams.args :=
  ⟨rfl, rfl, rfl, rfl, rfl, by decide, by decide⟩

/-- C4 (counterexample): after a first stdio `list_tools` call the session
is established (`session` set), yet the second call on that same client
spawns the subprocess again — its effect trace begins with another
`spawn` — and the exit stack then holds two launched transports. This
refutes "the second call reuses the open session and does not relaunch the
subprocess". -/
theorem list_tools_stdio_relaunches :
    ((MCPClient.list_tools (initClient none (some "run") (some "/abs/path/server") "stdio")
        .failure Json.null).1).session = some ()
    ∧ (MCPClient.list_tools
        ((MCPClient.list_tools (initClient none (some "run") (some "/abs/path/server") "stdio")
            .failure Json.null).1)
        .failure Json.null).2.2.2
      = [.spawn hardcodedServerParams, .sessionInit, .sessionListTools]
    ∧ ((MCPClient.list_tools
        ((MCPClient.list_tools (initClient none (some "run") (some "/abs/path/server") "stdio")
            .failure Json.null).1)
        .failure Json.null).1).exit_stack
      = [hardcodedServerParams, hardcodedServerParams] :=
  ⟨rfl, rfl, rfl⟩

/-- C4 (amended): a stdio `list_tools()` call made when no session is open
does establish one (spawn, handshake) and then returns the tool
listing — but so does every later call: each stdio `list_tools()`
unconditionally launches a new subprocess, initializes a fresh session, and
pushes another transport onto the exit stack; the open session is never
reused. -/
theorem list_tools_stdio_always_spawns (c : MCPClientState)
    (ps : StdioServerParameters) (r : HttpResponse) (ts : Json)
    (hp : c.protocol = "stdio") (hps : c.server_params = some ps) :
    MCPClient.list_tools c r ts =
      ({ c with session := some (), stdio := some (), write := some (),
                exit_stack := c.exit_stack ++ [ps] },
       .ok ts, false, [.spawn ps, .sessionInit, .sessionListTools]) := by
  unfold MCPClient.list_tools
  rw [hp]
  simp [hps]

/-- C4 (witness): the amended theorem applied to a freshly constructed
stdio client. -/
theorem list_tools_stdio_always_spawns_witness :
    MCPClient.list_tools (initClient none (some "run") (some "/abs/path/server") "stdio")
        .failure (Json.arr [])
      = ({ initClient none (some "run") (some "/abs/path/server") "stdio" with
            session := some (), stdio := some (), write := some (),
            exit_stack := (initClient none (some "run") (some "/abs/path/server") "stdio").exit_stack
              ++ [hardcodedServerParams] },
         .ok (Json.arr []), false,
         [.spawn hardcodedServerParams, .sessionInit, .sessionListTools]) :=
  list_tools_stdio_always_spawns _ _ _ _ rfl rfl

/-- C5 (counterexample): with a 200 response whose body parses to a JSON
object lacking a `tools` array, `list_tools` returns the empty sequence but
reports no error (the claim demands a reported error); and with a 200
response whose body parses to a JSON array, `.get` raises `AttributeError`,
which `except requests.RequestException` does not catch — an exception
propagates to the caller (the claim says that never happens). -/
theorem list_tools_http_gap :
    MCPClient.list_tools (initClient (some "http://h") none none "http")
        (.response 200 (some (Json.obj [("result", .str "ok")]))) Json.null
      = (initClient (some "http://h") none none "http", .ok (Json.arr []), false,
         [.httpGet "http://h/list_tools"])
    ∧ MCPClient.list_tools (initClient (some "http://h") none none "http")
        (.response 200 (some (Json.arr [.str "t"]))) Json.null
      = (initClient (some "http://h") none none "http",
         .error (.attributeError "get"), false,
         [.httpGet "http://h/list_tools"]) :=
  ⟨rfl, rfl⟩

/-- C5 (amended): HTTP `list_tools()` issues exactly one GET of
`{endpoint}/list_tools`. A network failure, a 4xx/5xx status, or a
missing/unparseable body yields the empty sequence together with a reported
error. A body that parses to a JSON object yields its `tools` value (the
empty sequence when the key is absent) — with no reported error. A body
that parses to JSON that is not an object makes the call raise
`AttributeError` to the caller. -/
theorem list_tools_http_behavior (c : MCPClientState) (u : String) (ts : Json)
    (hp : c.protocol = "http") (hu : c.server_url = some u) :
    (MCPClient.list_tools c .failure ts
        = (c, .ok (Json.arr []), true, [.httpGet (u ++ "/list_tools")]))
    ∧ (∀ status body, raise_for_status_raises status = true →
        MCPClient.list_tools c (.response status body) ts
          = (c, .ok (Json.arr []), true, [.httpGet (u ++ "/list_tools")]))
    ∧ (∀ status, raise_for_status_raises status = false →
        MCPClient.list_tools c (.response status none) ts
          = (c, .ok (Json.arr []), true, [.httpGet (u ++ "/list_tools")]))
    ∧ (∀ status es, raise_for_status_raises status = false →
        MCPClient.list_tools c (.response status (some (.obj es))) ts
          = (c, .ok (dictGet es "tools" (Json.arr [])), false,
             [.httpGet (u ++ "/list_tools")]))
    ∧ (∀ status es, raise_for_status_raises status = false →
        es.find? (fun e => e.1 = "tools") = none →
        MCPClient.list_tools c (.response status (some (.obj es))) ts
          = (c, .ok (Json.arr []), false, [.httpGet (u ++ "/list_tools")]))
    ∧ (∀ status (elems : List Json), raise_for_status_raises status = false →
        MCPClient.list_tools c (.response status (some (.arr elems))) ts
          = (c, .error (.attributeError "get"), false,
             [.httpGet (u ++ "/list_tools")])) := by
  have hurl : http_url c "/list_tools" = u ++ "/list_tools" := by
    simp [http_url, hu]
  refine ⟨?_, ?_, ?_, ?_, ?_, ?_⟩
  · simp [MCPClient.list_tools, hp, hurl]
  · intro status body hs
    simp [MCPClient.list_tools, hp, hurl, hs]
  · intro status hs
    simp [MCPClient.list_tools, hp, hurl, hs]
  · intro status es hs
    simp [MCPClient.list_tools, hp, hurl, hs]
  · intro status es hs hfind
    simp [MCPClient.list_tools, hp, hurl, hs, dictGet, hfind]
  · intro status elems hs
    simp [MCPClient.list_tools, hp, hurl, hs]

/-- C5 (witness): the amended theorem applied at a concrete client and the
network-failure response. -/
theorem list_tools_http_behavior_witness :
    MCPClient.list_tools (initClient (some "http://h") none none "http") .failure Json.null
      = (initClient (some "http://h") none none "http", .ok (Json.arr []), true,
         [.httpGet ("http://h" ++ "/list_tools")]) :=
  (list_tools_http_behavior _ "http://h" Json.null rfl rfl).1

/-- C6 (counterexample): in the `requests` library, `raise_for_status` raises only for
statuses in [400, 600), so a final non-2xx status below 400 — e.g. a 300
response carrying a JSON body — is not reported as an error:
`get_server_info` returns that body, which is not the empty result, with no
error reported. This refutes the claim for arbitrary non-2xx statuses. -/
theorem get_server_info_non2xx_gap :
    MCPClient.get_server_info (initClient (some "http://h") none none "http")
        (.response 300 (some (Json.obj [("v", .str "x")])))
      = (.ok (Json.obj [("v", .str "x")]), false, [.httpGet "http://h/server_info"])
    ∧ Json.obj [("v", .str "x")] ≠ Json.obj [] :=
  ⟨rfl, by simp⟩

/-- C6 (amended): for an HTTP client whose server is unreachable (the GET
raises a `RequestException`) or answers with a 4xx/5xx status,
`getServerInfo()` returns the empty result `{}` with the error reported to
the user, and no exception escapes to the caller (the outcome is a normal
return). Non-2xx statuses outside [400, 600) are not treated as errors. -/
theorem get_server_info_http_failure_empty (c : MCPClientState) (u : String)
    (r : HttpResponse) (hp : c.protocol = "http") (hu : c.server_url = some u)
    (hr : r = .failure ∨
          ∃ status body, r = .response status body ∧ raise_for_status_raises status = true) :
    MCPClient.get_server_info c r
      = (.ok (Json.obj []), true, [.httpGet (u ++ "/server_info")]) := by
  have hurl : http_url c "/server_info" = u ++ "/server_info" := by
    simp [http_url, hu]
  rcases hr with h | ⟨status, body, h, hs⟩ <;> subst h
  · simp [MCPClient.get_server_info, hp, hurl]
  · simp [MCPClient.get_server_info, hp, hurl, hs]

/-- C6 (witness): the amended theorem applied at a concrete client, once
for an unreachable server and once for a 500 status. -/
theorem get_server_info_http_failure_empty_witness :
    MCPClient.get_server_info (initClient (some "http://h") none none "http") .failure
      = (.ok (Json.obj []), true, [.httpGet ("http://h" ++ "/server_info")])
    ∧ MCPClient.get_server_info (initClient (some "http://h") none none "http")
        (.response 500 none)
      = (.ok (Json.obj []), true, [.httpGet ("http://h" ++ "/server_info")]) :=
  ⟨get_server_info_http_failure_empty _ "http://h" _ rfl rfl (Or.inl rfl),
   get_server_info_http_failure_empty _ "http://h" _ rfl rfl
     (Or.inr ⟨500, none, rfl, by decide⟩)⟩

/-- C7: for every registry-file state in which the file is missing or its
contents are not parseable JSON, `load_saved_servers` returns the empty
mapping; by its (exception-free) result type, nothing is raised to the
caller — a failure of `json.load` is absorbed by the `except Exception`
branch. -/
theorem load_missing_or_corrupt_empty (f : RegistryFile)
    (h : f = .missing ∨ f = .corrupt) :
    (load_saved_servers f).1 = Json.obj [] := by
  rcases h with h | h <;> subst h <;> rfl

/-- C7 (witness): the theorem applied to the corrupt-file state. -/
theorem load_missing_or_corrupt_empty_witness :
    (load_saved_servers .corrupt).1 = Json.obj [] :=
  load_missing_or_corrupt_empty .corrupt (Or.inr rfl)

/-- C8: the registry save/load round trip is faithful. After `save m`,
`load` returns exactly the JSON encoding of `m` with no error; decoding
that value gives back `m`; saving the loaded (decoded) registry leaves the
stored contents unchanged (`save(load())` is idempotent); and the concrete
scenario — adding the entry named `"local"` with protocol `"stdio"`,
command `"run"`, program `"/abs/path/server"`, saving, then loading —
yields exactly that one entry with those fields. -/
theorem registry_save_load_round_trip (m : Registry) (f : RegistryFile) :
    load_saved_servers (save_servers m f).1 = (encodeRegistry m, false)
    ∧ decodeRegistry (encodeRegistry m) = some m
    ∧ (save_servers ((decodeRegistry (load_saved_servers (save_servers m f).1).1).getD [])
         (save_servers m f).1).1 = (save_servers m f).1
    ∧ load_saved_servers (save_servers (addServer [] "local"
         [("protocol", "stdio"), ("command", "run"), ("program", "/abs/path/server")]) f).1
        = (Json.obj [("local", Json.obj [("protocol", .str "stdio"), ("command", .str "run"),
             ("program", .str "/abs/path/server")])], false) := by
  refine ⟨rfl, decodeRegistry_encode m, ?_, rfl⟩
  have h1 : (load_saved_servers (save_servers m f).1).1 = encodeRegistry m := rfl
  rw [h1, decodeRegistry_encode m]
  rfl

/-- C8 (witness): the round-trip theorem applied at the empty registry and
the missing file, instantiating the concrete add/save/load scenario. -/
theorem registry_save_load_round_trip_witness :
    load_saved_servers (save_servers (addServer [] "local"
        [("protocol", "stdio"), ("command", "run"), ("program", "/abs/path/server")]) .missing).1
      = (Json.obj [("local", Json.obj [("protocol", .str "stdio"), ("command", .str "run"),
           ("program", .str "/abs/path/server")])], false) :=
  (registry_save_load_round_trip [] .missing).2.2.2

/-- C9: for every non-empty `serverUrl`, the constructed HTTP client stores
the URL with all trailing `'/'` characters removed, the stored endpoint has
no trailing separator, and both HTTP operations build their request URL
from that normalized endpoint (one GET of `{endpoint}/server_info` resp.
`{endpoint}/list_tools`, whatever the response). -/
theorem http_url_normalized (s : String) (h : s ≠ "") :
    ∃ c, (MCPClient.init (some s) none none "http").1 = .ok c
      ∧ c.server_url = some (pyRstripSlashes s)
      ∧ (pyRstripSlashes s).data.getLast? ≠ some '/'
      ∧ (∀ r, (MCPClient.get_server_info c r).2.2
            = [.httpGet (pyRstripSlashes s ++ "/server_info")])
      ∧ (∀ r ts, (MCPClient.list_tools c r ts).2.2.2
            = [.httpGet (pyRstripSlashes s ++ "/list_tools")]) := by
  refine ⟨{ protocol := "http", process := none, stop_event := none,
            session := none, stdio := none, write := none,
            server_url := some (pyRstripSlashes s), command := none,
            server_params := none, exit_stack := [] },
          ?_, rfl, pyRstripSlashes_no_trailing s, ?_, ?_⟩
  · simp [MCPClient.init, h]
  · intro r
    rw [get_server_info_effects _ _ rfl]
    rfl
  · intro r ts
    rw [list_tools_http_effects _ _ _ rfl]
    rfl

/-- C9 (witness): the theorem applied at `"http://localhost:8000/"`, whose
normalization is `"http://localhost:8000"`. -/
theorem http_url_normalized_witness :
    (∃ c, (MCPClient.init (some "http://localhost:8000/") none none "http").1 = .ok c
      ∧ c.server_url = some (pyRstripSlashes "http://localhost:8000/")
      ∧ (pyRstripSlashes "http://localhost:8000/").data.getLast? ≠ some '/'
      ∧ (∀ r, (MCPClient.get_server_info c r).2.2
            = [.httpGet (pyRstripSlashes "http://localhost:8000/" ++ "/server_info")])
      ∧ (∀ r ts, (MCPClient.list_tools c r ts).2.2.2
            = [.httpGet (pyRstripSlashes "http://localhost:8000/" ++ "/list_tools")]))
    ∧ pyRstripSlashes "http://localhost:8000/" = "http://localhost:8000" :=
  ⟨http_url_normalized "http://localhost:8000/" (by decide), rfl⟩

/-- C10: `connect_to_server` on a script path ending neither in `.py` nor
`.js` raises `ValueError "Server script must be a .py or .js file"` before
any effect — no transport opened, nothing entered on the exit stack, no
subprocess spawned, the client state unchanged; on a path ending in `.py`
or `.js` the check passes (whatever then happens is never that
`ValueError`). -/
theorem connect_script_suffix_check (c : MCPClientState) (p : String)
    (r : HttpResponse) :
    (¬ (pyEndsWith p ".py" ∨ pyEndsWith p ".js") →
      MCPClient.connect_to_server c p r
        = (c, .error (.valueError "Server script must be a .py or .js file"), []))
    ∧ ((pyEndsWith p ".py" ∨ pyEndsWith p ".js") →
      (MCPClient.connect_to_server c p r).2.1
        ≠ .error (.valueError "Server script must be a .py or .js file")) := by
  constructor
  · intro h
    simp only [MCPClient.connect_to_server]
    rw [if_pos h]
  · intro h
    simp only [MCPClient.connect_to_server]
    rw [if_neg (not_not_intro h)]
    cases hps : c.server_params with
    | none => simp
    | some ps =>
        obtain ⟨j, b, e, hj⟩ := get_server_info_is_ok
          { c with session := some (), stdio := some (), write := some (),
                   exit_stack := c.exit_stack ++ [ps] } r
        rw [hps] at hj
        simp [hj]

/-- C10 (witness): the theorem applied at `"server.txt"` (neither suffix;
the `ValueError` is raised with no effects) and at `"server.py"` (the check
passes). -/
theorem connect_script_suffix_check_witness :
    MCPClient.connect_to_server (initClient none (some "run") none "stdio")
        "server.txt" .failure
      = (initClient none (some "run") none "stdio",
         .error (.valueError "Server script must be a .py or .js file"), [])
    ∧ (MCPClient.connect_to_server (initClient none (some "run") none "stdio")
        "server.py" .failure).2.1
      ≠ .error (.valueError "Server script must be a .py or .js file") :=
  ⟨(connect_script_suffix_check _ _ _).1 (by decide),
   (connect_script_suffix_check _ _ _).2 (by decide)⟩

end MCPRegistry
